import Mathlib

/-!
Verification development for the vast.ai GPU orchestration controller
(`local-gpu-controllers/gpu-service-v3-pair.py`).

The controller packages a WAV/JSON input pair into a tar.gz bundle, ships it
to a remote GPU host over ssh/rsync, starts a detached remote job, polls a
completion marker, and retrieves a result bundle with bounded retries.  The
shallow embedding below models each phase as a pure function over oracles
describing the outcome of every external (subprocess / filesystem) step, and
records the observable side effects as an explicit event trace.
-/

namespace GpuService

/-- Byte-wise prefix test on character lists. -/
def isPrefixL : List Char → List Char → Bool
  | [], _ => true
  | _ :: _, [] => false
  | p :: ps, c :: cs => (p == c) && isPrefixL ps cs

/-- Substring test on character lists: does `pat` occur contiguously in the list? -/
def hasSubL (pat : List Char) : List Char → Bool
  | [] => pat.isEmpty
  | c :: cs => isPrefixL pat (c :: cs) || hasSubL pat cs

/-- Python's `pat in s` substring containment on strings. -/
def hasSubstr (pat s : String) : Bool := hasSubL pat.data s.data

/-- Accumulator for `basename`: the characters seen since the last `/`. -/
def basenameAux (acc : List Char) : List Char → List Char
  | [] => acc
  | c :: cs => if c = '/' then basenameAux [] cs else basenameAux (acc ++ [c]) cs

/-- `os.path.basename`: the final path component, i.e. everything after the
last `/` (empty for a path ending in `/`, the whole string if no `/`). -/
def basename (p : String) : String := ⟨basenameAux [] p.data⟩

/-- Shell/`fnmatch` glob matching on character lists.  `*` matches any
(possibly empty) run of characters; every other character matches itself.
A `*` pattern head matches iff the rest of the pattern matches some suffix. -/
def globMatchL : List Char → List Char → Bool
  | [], cs => cs.isEmpty
  | p :: ps, cs =>
    if p = '*' then (cs.tails).any (fun suffix => globMatchL ps suffix)
    else
      match cs with
      | [] => false
      | c :: cs2 => (p == c) && globMatchL ps cs2

/-- Glob matching on strings. -/
def globMatch (pat s : String) : Bool := globMatchL pat.data s.data

/-- Does the file name begin with a dot (a hidden file)? -/
def startsWithDot (s : String) : Bool :=
  match s.data with
  | [] => false
  | c :: _ => c = '.'

/-- Python `glob.glob` matching for a pattern starting with `*` (the only
shape this program uses: `*.wav`, `*.json`): ordinary glob matching, except
that hidden files (leading dot) are never matched by a leading `*`. -/
def pyGlob (pat s : String) : Bool := globMatch pat s && !(startsWithDot s)

/-- Observable side effects of the controller, in execution order.  `ssh*`
and `rsync*` events are remote interactions; `local*` events touch the local
filesystem; `sleepE n` is a blocking wait of `n` seconds. -/
inductive Ev where
  | sshConnCheck
  | sshSetup
  | rsyncUpload
  | sshExtract
  | sshStart
  | localCreateBundle
  | localRemoveBundle
  | sshTail
  | sshMarkerCheck
  | sleepE (n : Nat)
  | sshMakeResultBundle
  | rsyncDownload
  | localExtract
  | localRemoveArchive
  | sshRmWorkDir
  | attemptStart (i : Nat)
deriving DecidableEq, Repr

/-- Classification of events that interact with the remote endpoint. -/
def Ev.isRemote : Ev → Bool
  | .sshConnCheck => true
  | .sshSetup => true
  | .rsyncUpload => true
  | .sshExtract => true
  | .sshStart => true
  | .sshTail => true
  | .sshMarkerCheck => true
  | .sshMakeResultBundle => true
  | .rsyncDownload => true
  | .sshRmWorkDir => true
  | _ => false

/-- The vast.ai configuration: `host`, `port`, `remote_path` are required
(validated at load); `keep_remote` is optional and read with
`config.get('keep_remote', False)`, modelled as an `Option Bool`. -/
structure Config where
  host : String
  port : Nat
  remotePath : String
  keepRemote : Option Bool
deriving DecidableEq

/-- `self.config.get('keep_remote', False)`. -/
def configKeepRemote (cfg : Config) : Bool := cfg.keepRemote.getD false

/-- `GPUController.find_audio_pair`: glob `*.wav` and `*.json` over the input
directory listing; return the pair only when exactly one of each is found,
else `(None, None)` (modelled as `none`). -/
def find_audio_pair (files : List String) : Option (String × String) :=
  let wavFiles := files.filter (fun f => pyGlob "*.wav" f)
  let jsonFiles := files.filter (fun f => pyGlob "*.json" f)
  match wavFiles, jsonFiles with
  | [w], [j] => some (w, j)
  | _, _ => none

/-- One member of a tar archive: the name stored in the archive and the
source path it was read from. -/
structure TarEntry where
  arcname : String
  srcPath : String
deriving DecidableEq

/-- `GPUController.create_compressed_archive`: each input file is added with
`arcname=os.path.basename(file_path)`, so only the base name is stored. -/
def create_compressed_archive (files : List String) : List TarEntry :=
  files.map (fun p => { arcname := basename p, srcPath := p })

/-- `tarfile.extractall` on an archive yields exactly the stored member
names (flat, since the stored names carry no directories). -/
def unpackNames (entries : List TarEntry) : List String :=
  entries.map (fun e => e.arcname)

/-- Outcome oracle for the five external steps of `execute_gpu_service`:
archive creation, remote `mkdir -p`, rsync upload, remote `tar xzf`, and the
detached remote start. -/
structure ExecOracle where
  createOk : Bool
  setupOk : Bool
  uploadOk : Bool
  extractOk : Bool
  startOk : Bool
deriving DecidableEq

/-- Result of the launch phase: the event trace, the returned work directory
(`none` when the phase failed and returned `None`), and whether the local
input bundle was created / deleted by the time the phase returned. -/
structure LaunchResult where
  events : List Ev
  workDir : Option String
  bundleCreated : Bool
  bundleDeleted : Bool
deriving DecidableEq

/-- `GPUController.execute_gpu_service`.  Every remote step runs with
`check=True`, so a failure raises and the enclosing `except` returns `None`
immediately; `os.remove(archive_path)` is reached only after the remote
start succeeds. -/
def execute_gpu_service (o : ExecOracle) (remotePath timestamp : String) : LaunchResult :=
  let wd := remotePath ++ "/work_" ++ timestamp
  if !o.createOk then
    { events := [.localCreateBundle], workDir := none,
      bundleCreated := false, bundleDeleted := false }
  else if !o.setupOk then
    { events := [.localCreateBundle, .sshSetup], workDir := none,
      bundleCreated := true, bundleDeleted := false }
  else if !o.uploadOk then
    { events := [.localCreateBundle, .sshSetup, .rsyncUpload], workDir := none,
      bundleCreated := true, bundleDeleted := false }
  else if !o.extractOk then
    { events := [.localCreateBundle, .sshSetup, .rsyncUpload, .sshExtract], workDir := none,
      bundleCreated := true, bundleDeleted := false }
  else if !o.startOk then
    { events := [.localCreateBundle, .sshSetup, .rsyncUpload, .sshExtract, .sshStart],
      workDir := none, bundleCreated := true, bundleDeleted := false }
  else
    { events := [.localCreateBundle, .sshSetup, .rsyncUpload, .sshExtract, .sshStart,
                 .localRemoveBundle],
      workDir := some wd, bundleCreated := true, bundleDeleted := true }

/-- What one iteration of the poll loop encounters: a caller interrupt
(`KeyboardInterrupt`), an I/O exception, the completion marker present, or
the job still running. -/
inductive IterStep where
  | interrupt
  | err
  | done
  | running
deriving DecidableEq

/-- `GPUController.monitor_process`: each iteration tails the remote log,
tests `work_dir/COMPLETED` (returning `True` when present), else sleeps 5
seconds.  `KeyboardInterrupt` and any exception both return `False`.  The
`while True` loop is embedded with explicit fuel; `none` means the fuel ran
out with the loop still going. -/
def monitor_process (steps : Nat → IterStep) : Nat → List Ev × Option Bool
  | 0 => ([], none)
  | fuel + 1 =>
    match steps 0 with
    | .interrupt => ([], some false)
    | .err => ([], some false)
    | .done => ([.sshTail, .sshMarkerCheck], some true)
    | .running =>
      let r := monitor_process (fun i => steps (i + 1)) fuel
      (.sshTail :: .sshMarkerCheck :: .sleepE 5 :: r.1, r.2)

/-- The remote result-bundle command, as built in `retrieve_results`:
`tar czf results.tar.gz --exclude=... transcript_* && test -s results.tar.gz`. -/
structure RemoteBundleCmd where
  archiveName : String
  excludes : List String
  includeGlob : String
  verifyNonEmpty : Bool
deriving DecidableEq

/-- The literal `create_archive_cmd` string of the source, as structured
data: exclusion patterns in order, the single inclusion glob, and the
trailing `test -s` non-emptiness check. -/
def create_archive_cmd (wavName jsonName : String) : RemoteBundleCmd :=
  { archiveName := "results.tar.gz"
  , excludes := [wavName, jsonName, "process.log", "COMPLETED", "input_*.tar.gz", "*.log"]
  , includeGlob := "transcript_*"
  , verifyNonEmpty := true }

/-- tar's inclusion set for the command: a file enters the bundle iff it
matches the inclusion glob and no `--exclude` pattern matches it. -/
def bundleIncluded (c : RemoteBundleCmd) (f : String) : Bool :=
  globMatch c.includeGlob f && !(c.excludes.any (fun p => globMatch p f))

/-- The remote step succeeds iff tar exited 0 and, because of the chained
`test -s`, the produced bundle is non-empty. -/
def remoteStepSuccess (c : RemoteBundleCmd) (tarOk : Bool) (bundleSize : Nat) : Bool :=
  tarOk && (!c.verifyNonEmpty || decide (0 < bundleSize))

/-- `expected_files` from `retrieve_results`: the three substring markers the
verification step looks for. -/
def expected_files : List String :=
  ["transcript_detailed", "transcript_conversation", "transcript_"]

/-- `found_files`: the listing entries containing at least one marker. -/
def foundFiles (listing : List String) : List String :=
  listing.filter (fun f => expected_files.any (fun pat => hasSubstr pat f))

/-- The verification step passes iff `found_files` is non-empty (the code
raises "No transcript files found..." only when it is empty). -/
def checkTranscripts (listing : List String) : Bool := !(foundFiles listing).isEmpty

/-- Outcome oracle for one retrieval attempt: the remote archive command
(including its `test -s`), the rsync download, the local extraction (with the
resulting directory listing), and the remote `rm -rf` cleanup. -/
structure AttemptOracle where
  archiveStep : Except String Unit
  downloadStep : Except String Unit
  extractStep : Except String Unit
  extracted : List String
  rmStep : Except String Unit

/-- One iteration of the retry loop body of `retrieve_results` (without the
pre-attempt sleep): remote archive, download, extract, verify markers,
remove the local archive, then — unless `keep_remote` — the remote cleanup.
Any failing step raises, which the loop treats as a failed attempt. -/
def attemptRun (keep : Bool) (o : AttemptOracle) : List Ev × Except String Unit :=
  match o.archiveStep with
  | .error e => ([.sshMakeResultBundle], .error e)
  | .ok _ =>
    match o.downloadStep with
    | .error e => ([.sshMakeResultBundle, .rsyncDownload], .error e)
    | .ok _ =>
      match o.extractStep with
      | .error e => ([.sshMakeResultBundle, .rsyncDownload, .localExtract], .error e)
      | .ok _ =>
        if checkTranscripts o.extracted then
          if keep then
            ([.sshMakeResultBundle, .rsyncDownload, .localExtract, .localRemoveArchive],
             .ok ())
          else
            match o.rmStep with
            | .error e =>
              ([.sshMakeResultBundle, .rsyncDownload, .localExtract, .localRemoveArchive,
                .sshRmWorkDir], .error e)
            | .ok _ =>
              ([.sshMakeResultBundle, .rsyncDownload, .localExtract, .localRemoveArchive,
                .sshRmWorkDir], .ok ())
        else
          ([.sshMakeResultBundle, .rsyncDownload, .localExtract],
           .error "No transcript files found in the extracted archive")

/-- How the retry loop of `retrieve_results` ended: an attempt returned
`True`; the last attempt re-raised ("Failed after N attempts: ..."); or the
loop fell through without running (`max_retries = 0`, Python returns `None`). -/
inductive RLoop where
  | success
  | raised (msg : String)
  | fellThrough
deriving DecidableEq

/-- `time.sleep(attempt * 2)`: the backoff unit of the linear backoff. -/
def backoffUnit : Nat := 2

/-- The retry loop of `retrieve_results`.  `idx` is the current 0-based
attempt index, `remaining` the number of loop iterations left.  Attempts
after the first are preceded by a `idx * backoffUnit` sleep; a failure on
`idx = maxRetries - 1` raises an exception wrapping the last error. -/
def retrieveGo (keep : Bool) (os : Nat → AttemptOracle) (maxRetries : Nat) :
    Nat → Nat → List Ev × RLoop
  | _, 0 => ([], .fellThrough)
  | idx, remaining + 1 =>
    let pre : List Ev := if idx > 0 then [.sleepE (idx * backoffUnit)] else []
    let a := attemptRun keep (os idx)
    match a.2 with
    | .ok _ => (.attemptStart idx :: (pre ++ a.1), .success)
    | .error e =>
      if idx = maxRetries - 1 then
        (.attemptStart idx :: (pre ++ a.1),
         .raised ("Failed after " ++ toString maxRetries ++ " attempts: " ++ e))
      else
        let r := retrieveGo keep os maxRetries (idx + 1) remaining
        (.attemptStart idx :: (pre ++ a.1) ++ r.1, r.2)

/-- `GPUController.retrieve_results`: one `initial_delay` sleep, then the
retry loop; the outer `except` turns a raised exhaustion into `False`
(`some false`), success returns `True`, and loop fall-through returns
Python's implicit `None` (`none`). -/
def retrieve_results (keep : Bool) (os : Nat → AttemptOracle)
    (maxRetries initialDelay : Nat) : List Ev × Option Bool × RLoop :=
  let r := retrieveGo keep os maxRetries 0 maxRetries
  let outcome : Option Bool :=
    match r.2 with
    | .success => some true
    | .raised _ => some false
    | .fellThrough => none
  (.sleepE initialDelay :: r.1, outcome, r.2)

/-- Terminal outcomes of `main`, one per early-return message. -/
inductive MainOutcome where
  | badInput
  | connFailed
  | noPair
  | launchFailed
  | monitorFailed
  | retrieveFailed
  | success
deriving DecidableEq

/-- The command-line arguments of `main`: the input directory (validated
with `os.path.isdir`) and the parsed `--keep-remote` flag. -/
structure MainArgs where
  inputIsDir : Bool
  cliKeepRemote : Bool
deriving DecidableEq

/-- `main`: validate the input directory, verify the connection, find the
WAV/JSON pair, launch, monitor, retrieve (with the source's literal
`max_retries=3`, `initial_delay=5` defaults).  The `--keep-remote` value is
parsed into `args` but the retrieval cleanup reads only
`config.get('keep_remote', False)`. -/
def mainRun (args : MainArgs) (cfg : Config) (files : List String) (connOk : Bool)
    (exec : ExecOracle) (timestamp : String) (steps : Nat → IterStep) (fuel : Nat)
    (os : Nat → AttemptOracle) : MainOutcome × List Ev :=
  if !args.inputIsDir then (.badInput, [])
  else if !connOk then (.connFailed, [.sshConnCheck])
  else
    match find_audio_pair files with
    | none => (.noPair, [.sshConnCheck])
    | some _ =>
      let l := execute_gpu_service exec cfg.remotePath timestamp
      match l.workDir with
      | none => (.launchFailed, .sshConnCheck :: l.events)
      | some _ =>
        let m := monitor_process steps fuel
        if m.2 = some true then
          let r := retrieve_results (configKeepRemote cfg) os 3 5
          ((if r.2.1 = some true then .success else .retrieveFailed),
           .sshConnCheck :: (l.events ++ m.1 ++ r.1))
        else
          (.monitorFailed, .sshConnCheck :: (l.events ++ m.1))

/-- A retrieval attempt whose four external steps all succeed and whose
extraction produces the given directory listing. -/
def okAttempt (listing : List String) : AttemptOracle :=
  { archiveStep := .ok (), downloadStep := .ok (), extractStep := .ok (),
    extracted := listing, rmStep := .ok () }

/-- A retrieval attempt whose remote archive command fails outright. -/
def failAttempt : AttemptOracle :=
  { archiveStep := .error "tar failed", downloadStep := .ok (), extractStep := .ok (),
    extracted := [], rmStep := .ok () }

/-- A retrieval attempt succeeded through fetch and verification: the remote
archive, download and extraction steps all succeeded and the extracted
listing passed the marker check.  Its negation is exactly the spec's
transient retrieval failure (empty bundle, download failure, or missing
output category). -/
def fetchVerifyOk (o : AttemptOracle) : Prop :=
  o.archiveStep = .ok () ∧ o.downloadStep = .ok () ∧ o.extractStep = .ok () ∧
  checkTranscripts o.extracted = true

/-- The event trace of `k` full (marker-absent, uninterrupted) poll
iterations: log tail, marker check, 5-second sleep, repeated. -/
def iterBlock : Nat → List Ev
  | 0 => []
  | k + 1 => .sshTail :: .sshMarkerCheck :: .sleepE 5 :: iterBlock k

/-- Unfolding equation for a starred pattern head. -/
theorem globMatchL_star (ps cs : List Char) :
    globMatchL ('*' :: ps) cs = (cs.tails).any (fun suffix => globMatchL ps suffix) := by
  rw [globMatchL.eq_def]
  simp

/-- Unfolding equation for a literal pattern head. -/
theorem globMatchL_cons (p : Char) (ps : List Char) (c : Char) (cs : List Char)
    (hp : p ≠ '*') :
    globMatchL (p :: ps) (c :: cs) = ((p == c) && globMatchL ps cs) := by
  rw [globMatchL.eq_def]
  simp [hp]

/-- A `*` pattern head can always absorb nothing: if the rest of the pattern
matches the text, the starred pattern matches it too. -/
theorem globMatchL_star_skip (ps cs : List Char)
    (h : globMatchL ps cs = true) : globMatchL ('*' :: ps) cs = true := by
  have hmem : cs ∈ cs.tails := by
    cases cs <;> simp [List.tails]
  rw [globMatchL_star]
  simp only [List.any_eq_true]
  exact ⟨cs, hmem, h⟩

/-- Every glob pattern matches its own literal text. -/
theorem globMatchL_self (p : List Char) : globMatchL p p = true := by
  induction p with
  | nil => simp [globMatchL]
  | cons c ps ih =>
    by_cases hc : c = '*'
    · subst hc
      rw [globMatchL_star]
      simp only [List.any_eq_true]
      exact ⟨ps, by simp [List.mem_tails], ih⟩
    · rw [globMatchL_cons c ps c ps hc]
      simp [ih]

/-- String version: every glob pattern matches itself. -/
theorem globMatch_self (p : String) : globMatch p p = true :=
  globMatchL_self p.data

/-- `basenameAux` never returns a string containing `/` when the accumulator
contains none. -/
theorem basenameAux_no_slash (cs : List Char) :
    ∀ acc, '/' ∉ acc → '/' ∉ basenameAux acc cs := by
  induction cs with
  | nil => intro acc h; simpa [basenameAux] using h
  | cons c cs ih =>
    intro acc h
    by_cases hc : c = '/'
    · rw [basenameAux, if_pos hc]
      exact ih [] (by simp)
    · rw [basenameAux, if_neg hc]
      refine ih (acc ++ [c]) ?_
      intro hmem
      rcases List.mem_append.mp hmem with h1 | h1
      · exact h h1
      · exact hc ((List.mem_singleton.mp h1).symm)

/-- The base name of any path contains no `/`: archives built from base names
are flat. -/
theorem basename_no_slash (p : String) : '/' ∉ (basename p).data :=
  basenameAux_no_slash p.data [] (by simp)

/-- A file matched by any `--exclude` pattern is not in the bundle's
inclusion set. -/
theorem bundleIncluded_of_excluded (c : RemoteBundleCmd) (f p : String)
    (hp : p ∈ c.excludes) (hm : globMatch p f = true) : bundleIncluded c f = false := by
  have hany : (c.excludes.any (fun q => globMatch q f)) = true :=
    List.any_eq_true.mpr ⟨p, hp, hm⟩
  simp [bundleIncluded, hany]

/-- C3: for every pair of original input file names, the remote result-bundle
command excludes both input names and all control files (`process.log`,
`COMPLETED`, anything matching `input_*.tar.gz`) from its inclusion set, uses
the `transcript_*` inclusion glob, and declares the remote step successful
only when the produced bundle has size > 0. -/
theorem result_bundle_cmd_contract (wavName jsonName : String) :
    (create_archive_cmd wavName jsonName).includeGlob = "transcript_*" ∧
    bundleIncluded (create_archive_cmd wavName jsonName) wavName = false ∧
    bundleIncluded (create_archive_cmd wavName jsonName) jsonName = false ∧
    bundleIncluded (create_archive_cmd wavName jsonName) "process.log" = false ∧
    bundleIncluded (create_archive_cmd wavName jsonName) "COMPLETED" = false ∧
    (∀ f, globMatch "input_*.tar.gz" f = true →
      bundleIncluded (create_archive_cmd wavName jsonName) f = false) ∧
    (∀ tarOk bundleSize,
      remoteStepSuccess (create_archive_cmd wavName jsonName) tarOk bundleSize = true →
      0 < bundleSize) := by
  refine ⟨rfl, ?_, ?_, ?_, ?_, ?_, ?_⟩
  · exact bundleIncluded_of_excluded _ wavName wavName (by simp [create_archive_cmd])
      (globMatch_self wavName)
  · exact bundleIncluded_of_excluded _ jsonName jsonName (by simp [create_archive_cmd])
      (globMatch_self jsonName)
  · exact bundleIncluded_of_excluded _ "process.log" "process.log"
      (by simp [create_archive_cmd]) (globMatch_self "process.log")
  · exact bundleIncluded_of_excluded _ "COMPLETED" "COMPLETED"
      (by simp [create_archive_cmd]) (globMatch_self "COMPLETED")
  · intro f hf
    exact bundleIncluded_of_excluded _ f "input_*.tar.gz" (by simp [create_archive_cmd]) hf
  · intro tarOk bundleSize h
    simp [remoteStepSuccess, create_archive_cmd] at h
    exact h.2

/-- C3 witness: the contract instantiated at input pair
`meeting.wav` / `meeting.json`, a concrete timestamped input bundle name, and
a concrete non-empty bundle size. -/
theorem result_bundle_cmd_contract_witness :
    bundleIncluded (create_archive_cmd "meeting.wav" "meeting.json") "meeting.wav" = false ∧
    bundleIncluded (create_archive_cmd "meeting.wav" "meeting.json")
      "input_20240101_120000.tar.gz" = false ∧
    0 < 1 := by
  have h := result_bundle_cmd_contract "meeting.wav" "meeting.json"
  exact ⟨h.2.1, h.2.2.2.2.2.1 "input_20240101_120000.tar.gz" (by decide),
    h.2.2.2.2.2.2 true 1 (by decide)⟩

/-- C7: packing a list of input paths stores only base names, so unpacking
the bundle yields exactly the base names of the originals — flat, with no
directory separators — regardless of the directory depth of the original
paths. -/
theorem pack_unpack_flat_basenames (files : List String)
    (hnd : (files.map basename).Nodup) :
    unpackNames (create_compressed_archive files) = files.map basename ∧
    (∀ n ∈ unpackNames (create_compressed_archive files), '/' ∉ n.data) := by
  constructor
  · simp [unpackNames, create_compressed_archive]
  · intro n hn
    simp only [unpackNames, create_compressed_archive, List.map_map, List.mem_map] at hn
    obtain ⟨p, _, hp⟩ := hn
    rw [← hp]
    exact basename_no_slash p

/-- C7 witness: a two-file bundle with nested directory paths unpacks to the
two base names. -/
theorem pack_unpack_flat_basenames_witness :
    (["audio/deep/dir/m.wav", "cfg/m.json"].map basename).Nodup ∧
    unpackNames (create_compressed_archive ["audio/deep/dir/m.wav", "cfg/m.json"])
      = ["audio/deep/dir/m.wav", "cfg/m.json"].map basename :=
  ⟨by decide,
   (pack_unpack_flat_basenames ["audio/deep/dir/m.wav", "cfg/m.json"] (by decide)).1⟩

/-- C8: if the completion marker is already present when the poll loop
starts, the poller returns `Completed` (`True`) on the first iteration: one
log tail and one marker check, no sleep. -/
theorem monitor_marker_preexisting (steps : Nat → IterStep) (fuel : Nat)
    (h0 : steps 0 = .done) (hfuel : 0 < fuel) :
    monitor_process steps fuel = ([.sshTail, .sshMarkerCheck], some true) := by
  cases fuel with
  | zero => exact absurd hfuel (by simp)
  | succ n => simp [monitor_process, h0]

/-- C8 witness: marker present from the start, fuel 1. -/
theorem monitor_marker_preexisting_witness :
    monitor_process (fun _ => IterStep.done) 1 = ([.sshTail, .sshMarkerCheck], some true) :=
  monitor_marker_preexisting (fun _ => IterStep.done) 1 rfl (by decide)

/-- C5 counterexample: with the archive created successfully and the rsync
upload failing, the launch phase returns `None` with the local bundle still
on disk — it is not deleted on this exit path. -/
theorem launch_leaves_bundle_on_upload_failure :
    (execute_gpu_service ⟨true, true, false, true, true⟩ "/remote" "20240101_120000").bundleCreated
        = true ∧
    (execute_gpu_service ⟨true, true, false, true, true⟩ "/remote" "20240101_120000").bundleDeleted
        = false ∧
    (execute_gpu_service ⟨true, true, false, true, true⟩ "/remote" "20240101_120000").workDir
        = none :=
  ⟨rfl, rfl, rfl⟩

/-- C5 amended: once the local bundle is created, the launch phase deletes it
iff every later step (remote setup, upload, remote unpack, remote start)
succeeds, i.e. iff the phase returns a work directory; on that path the
deletion is the final action, after the remote start (not immediately after
upload).  On every failure exit path the bundle is left behind. -/
theorem launch_bundle_deleted_iff_success (o : ExecOracle) (rp ts : String)
    (hc : o.createOk = true) :
    ((execute_gpu_service o rp ts).bundleDeleted = true ↔
      (execute_gpu_service o rp ts).workDir ≠ none) ∧
    ((execute_gpu_service o rp ts).workDir ≠ none →
      (execute_gpu_service o rp ts).events
        = [.localCreateBundle, .sshSetup, .rsyncUpload, .sshExtract, .sshStart,
           .localRemoveBundle]) := by
  obtain ⟨c, s, u, e, st⟩ := o
  subst hc
  cases s <;> cases u <;> cases e <;> cases st <;> simp [execute_gpu_service]

/-- C5 amended witness: the all-success launch deletes the bundle as its
final event. -/
theorem launch_bundle_deleted_iff_success_witness :
    (execute_gpu_service ⟨true, true, true, true, true⟩ "/remote" "ts").bundleDeleted = true :=
  (launch_bundle_deleted_iff_success ⟨true, true, true, true, true⟩ "/remote" "ts" rfl).1.mpr
    (by simp [execute_gpu_service])

/-- C4 counterexample: cancellation (KeyboardInterrupt) and an I/O error in
the poll loop produce the same return value `False` — the cancelled outcome
is not distinct from the error outcome. -/
theorem monitor_cancel_not_distinct_from_error :
    (monitor_process (fun _ => IterStep.interrupt) 5).2
        = (monitor_process (fun _ => IterStep.err) 5).2 ∧
    (monitor_process (fun _ => IterStep.interrupt) 5).2 = some false :=
  ⟨rfl, rfl⟩

/-- C4 amended: when the caller interrupts at iteration `k` of the poll loop,
the poller returns `False` — the same value it returns for an error, not a
distinct outcome — and performs no remote interaction after the cancellation:
the trace is exactly the `k` completed iterations. -/
theorem monitor_cancel_returns_false_no_further_remote (steps : Nat → IterStep) (k fuel : Nat)
    (hrun : ∀ j, j < k → steps j = .running) (hk : steps k = .interrupt) (hfuel : k < fuel) :
    monitor_process steps fuel = (iterBlock k, some false) := by
  induction k generalizing steps fuel with
  | zero =>
    cases fuel with
    | zero => exact absurd hfuel (by simp)
    | succ n => simp [monitor_process, hk, iterBlock]
  | succ k ih =>
    cases fuel with
    | zero => exact absurd hfuel (by simp)
    | succ n =>
      have h0 : steps 0 = .running := hrun 0 (Nat.succ_pos k)
      have hrec := ih (fun i => steps (i + 1)) n
        (fun j hj => hrun (j + 1) (by omega)) hk (by omega)
      simp [monitor_process, h0, hrec, iterBlock]

/-- An attempt that returns `True` passed the transcript-marker check. -/
theorem attemptRun_ok_check (keep : Bool) (o : AttemptOracle)
    (h : (attemptRun keep o).2 = .ok ()) : checkTranscripts o.extracted = true := by
  obtain ⟨a, dl, ex, lst, rm⟩ := o
  cases a with
  | error e => simp [attemptRun] at h
  | ok u =>
    cases u
    cases dl with
    | error e => simp [attemptRun] at h
    | ok u =>
      cases u
      cases ex with
      | error e => simp [attemptRun] at h
      | ok u =>
        cases u
        by_cases hchk : checkTranscripts lst = true
        · exact hchk
        · simp [attemptRun, hchk] at h

/-- The remote `rm -rf` runs inside an attempt only when the retention flag
is unset and the attempt got through fetch and verification. -/
theorem attemptRun_rm_reaches_cleanup (keep : Bool) (o : AttemptOracle)
    (h : Ev.sshRmWorkDir ∈ (attemptRun keep o).1) :
    keep = false ∧ fetchVerifyOk o := by
  obtain ⟨a, dl, ex, lst, rm⟩ := o
  cases a with
  | error e => simp [attemptRun] at h
  | ok u =>
    cases u
    cases dl with
    | error e => simp [attemptRun] at h
    | ok u =>
      cases u
      cases ex with
      | error e => simp [attemptRun] at h
      | ok u =>
        cases u
        by_cases hchk : checkTranscripts lst = true
        · cases keep with
          | true => simp [attemptRun, hchk] at h
          | false =>
            cases rm with
            | error e => exact ⟨rfl, rfl, rfl, rfl, hchk⟩
            | ok u => cases u; exact ⟨rfl, rfl, rfl, rfl, hchk⟩
        · simp [attemptRun, hchk] at h

/-- A transient attempt failure (failed fetch step or missing markers)
raises, and in particular issues no remote `rm -rf`. -/
theorem attemptRun_transient_fail (keep : Bool) (o : AttemptOracle)
    (h : ¬ fetchVerifyOk o) :
    (∃ e, (attemptRun keep o).2 = .error e) ∧
    Ev.sshRmWorkDir ∉ (attemptRun keep o).1 := by
  obtain ⟨a, dl, ex, lst, rm⟩ := o
  cases a with
  | error e => exact ⟨⟨e, by simp [attemptRun]⟩, by simp [attemptRun]⟩
  | ok u =>
    cases u
    cases dl with
    | error e => exact ⟨⟨e, by simp [attemptRun]⟩, by simp [attemptRun]⟩
    | ok u =>
      cases u
      cases ex with
      | error e => exact ⟨⟨e, by simp [attemptRun]⟩, by simp [attemptRun]⟩
      | ok u =>
        cases u
        have hchk : checkTranscripts lst = false := by
          rcases Bool.eq_false_or_eq_true (checkTranscripts lst) with hc | hc
          · exact absurd ⟨rfl, rfl, rfl, hc⟩ h
          · exact hc
        refine ⟨⟨"No transcript files found in the extracted archive", ?_⟩, ?_⟩ <;>
          simp [attemptRun, hchk]

/-- Unfolding equation for a successful attempt: the loop returns `True`. -/
theorem retrieveGo_succ_ok (keep : Bool) (os : Nat → AttemptOracle) (mr idx rem : Nat)
    (h : (attemptRun keep (os idx)).2 = .ok ()) :
    retrieveGo keep os mr idx (rem + 1)
      = (.attemptStart idx ::
          ((if idx > 0 then [Ev.sleepE (idx * backoffUnit)] else [])
            ++ (attemptRun keep (os idx)).1),
         .success) := by
  simp only [retrieveGo, h]

/-- Unfolding equation for a failed last attempt: the loop re-raises,
wrapping the underlying error. -/
theorem retrieveGo_succ_err_last (keep : Bool) (os : Nat → AttemptOracle) (mr idx rem : Nat)
    (e : String) (h : (attemptRun keep (os idx)).2 = .error e) (hidx : idx = mr - 1) :
    retrieveGo keep os mr idx (rem + 1)
      = (.attemptStart idx ::
          ((if idx > 0 then [Ev.sleepE (idx * backoffUnit)] else [])
            ++ (attemptRun keep (os idx)).1),
         .raised ("Failed after " ++ toString mr ++ " attempts: " ++ e)) := by
  simp only [retrieveGo, h]
  rw [if_pos hidx]

/-- Unfolding equation for a failed non-last attempt: the loop continues. -/
theorem retrieveGo_succ_err_cont (keep : Bool) (os : Nat → AttemptOracle) (mr idx rem : Nat)
    (e : String) (h : (attemptRun keep (os idx)).2 = .error e) (hidx : idx ≠ mr - 1) :
    retrieveGo keep os mr idx (rem + 1)
      = (.attemptStart idx ::
          ((if idx > 0 then [Ev.sleepE (idx * backoffUnit)] else [])
            ++ (attemptRun keep (os idx)).1)
          ++ (retrieveGo keep os mr (idx + 1) rem).1,
         (retrieveGo keep os mr (idx + 1) rem).2) := by
  simp only [retrieveGo, h]
  rw [if_neg hidx]

/-- If the retry loop ends in `success`, some attempt in range returned
`True`. -/
theorem retrieveGo_success_has_ok_attempt (keep : Bool) (os : Nat → AttemptOracle)
    (mr : Nat) : ∀ rem idx, (retrieveGo keep os mr idx rem).2 = .success →
    ∃ i, idx ≤ i ∧ i < idx + rem ∧ (attemptRun keep (os i)).2 = .ok () := by
  intro rem
  induction rem with
  | zero =>
    intro idx h
    simp [retrieveGo] at h
  | succ rem ih =>
    intro idx h
    rcases ha : (attemptRun keep (os idx)).2 with e | u
    · by_cases hidx : idx = mr - 1
      · rw [retrieveGo_succ_err_last keep os mr idx rem e ha hidx] at h
        simp at h
      · rw [retrieveGo_succ_err_cont keep os mr idx rem e ha hidx] at h
        obtain ⟨i, h1, h2, h3⟩ := ih (idx + 1) h
        exact ⟨i, by omega, by omega, h3⟩
    · cases u
      exact ⟨idx, le_refl idx, by omega, ha⟩

/-- A passed marker check means some listing entry contains one of the three
markers. -/
theorem checkTranscripts_any (listing : List String)
    (h : checkTranscripts listing = true) :
    listing.any (fun f => expected_files.any (fun pat => hasSubstr pat f)) = true := by
  rcases hf : foundFiles listing with _ | ⟨x, xs⟩
  · rw [checkTranscripts, hf] at h
    simp at h
  · have hx : x ∈ foundFiles listing := by rw [hf]; exact List.mem_cons_self x xs
    rw [foundFiles, List.mem_filter] at hx
    exact List.any_eq_true.mpr ⟨x, hx.1, hx.2⟩

/-- When every attempt fails at a transient step, the retry loop never
succeeds and never reaches the remote cleanup. -/
theorem retrieveGo_transient_no_rm (keep : Bool) (os : Nat → AttemptOracle) (mr : Nat)
    (h : ∀ i, ¬ fetchVerifyOk (os i)) :
    ∀ rem idx, Ev.sshRmWorkDir ∉ (retrieveGo keep os mr idx rem).1 ∧
      (retrieveGo keep os mr idx rem).2 ≠ .success := by
  intro rem
  induction rem with
  | zero =>
    intro idx
    simp [retrieveGo]
  | succ rem ih =>
    intro idx
    obtain ⟨⟨e, he⟩, hnm⟩ := attemptRun_transient_fail keep (os idx) (h idx)
    have hpre : Ev.sshRmWorkDir
        ∉ (if idx > 0 then [Ev.sleepE (idx * backoffUnit)] else []) := by
      split <;> simp
    by_cases hidx : idx = mr - 1
    · rw [retrieveGo_succ_err_last keep os mr idx rem e he hidx]
      constructor
      · intro hmem
        simp only [List.mem_cons, List.mem_append] at hmem
        rcases hmem with hmem | hmem | hmem
        · exact absurd hmem (by simp)
        · exact hpre hmem
        · exact hnm hmem
      · simp
    · obtain ⟨ihm, ihs⟩ := ih (idx + 1)
      rw [retrieveGo_succ_err_cont keep os mr idx rem e he hidx]
      constructor
      · intro hmem
        simp only [List.mem_cons, List.mem_append] at hmem
        rcases hmem with (hmem | hmem | hmem) | hmem
        · exact absurd hmem (by simp)
        · exact hpre hmem
        · exact hnm hmem
        · exact ihm hmem
      · exact ihs

/-- C1 counterexample: an extracted set containing only a conversation-view
file — no structured-transcript (detailed) file and no plain-text file — is
returned as a success by `retrieve_results`, because the verification only
requires `found_files` to be non-empty, not one file per category. -/
theorem retrieve_succeeds_without_detailed_category :
    (retrieve_results false (fun _ => okAttempt ["transcript_conversation_1.json"]) 3 5).2.1
        = some true ∧
    (["transcript_conversation_1.json"].any
        (fun f => hasSubstr "transcript_detailed" f)) = false := by
  constructor
  · decide
  · decide

/-- C1 amended: `retrieve_results` returns a success outcome only if some
attempt's extracted listing contains at least one file name matching at
least one of the three markers; it does not require one file per category
(a listing with a conversation file alone already passes). -/
theorem retrieve_success_requires_marker_match (keep : Bool) (os : Nat → AttemptOracle)
    (mr d : Nat) (h : (retrieve_results keep os mr d).2.1 = some true) :
    ∃ i, i < mr ∧ (os i).extracted.any
      (fun f => expected_files.any (fun pat => hasSubstr pat f)) = true := by
  have hloop : (retrieveGo keep os mr 0 mr).2 = .success := by
    rcases hr : (retrieveGo keep os mr 0 mr).2 with _ | m | _
    · rfl
    · simp [retrieve_results, hr] at h
    · simp [retrieve_results, hr] at h
  obtain ⟨i, _, hlt, hok⟩ := retrieveGo_success_has_ok_attempt keep os mr mr 0 hloop
  exact ⟨i, by omega, checkTranscripts_any _ (attemptRun_ok_check keep (os i) hok)⟩

/-- C1 amended witness: a successful run whose only transcript file is a
plain-text one. -/
theorem retrieve_success_requires_marker_match_witness :
    ∃ i, i < 3 ∧ (okAttempt ["transcript_1.txt"]).extracted.any
      (fun f => expected_files.any (fun pat => hasSubstr pat f)) = true :=
  retrieve_success_requires_marker_match false (fun _ => okAttempt ["transcript_1.txt"]) 3 5
    (by decide)

/-- C2: with `max_retries = 3` and every attempt failing, `retrieve_results`
makes exactly attempts 0, 1, 2 and returns the failure (`False`) produced by
re-raising an exception wrapping the last underlying error, after a single
`initial_delay` sleep before the first attempt, a `1 * backoffUnit` sleep
before the second attempt and a `2 * backoffUnit` sleep before the third. -/
theorem retrieve_exhausts_three_attempts (keep : Bool) (os : Nat → AttemptOracle)
    (d : Nat) (m0 m1 m2 : String)
    (h0 : (attemptRun keep (os 0)).2 = .error m0)
    (h1 : (attemptRun keep (os 1)).2 = .error m1)
    (h2 : (attemptRun keep (os 2)).2 = .error m2) :
    retrieve_results keep os 3 d
      = (.sleepE d ::
          ((.attemptStart 0 :: (attemptRun keep (os 0)).1)
            ++ ((.attemptStart 1 :: .sleepE (1 * backoffUnit) :: (attemptRun keep (os 1)).1)
              ++ (.attemptStart 2 :: .sleepE (2 * backoffUnit) :: (attemptRun keep (os 2)).1))),
         some false,
         .raised ("Failed after " ++ toString 3 ++ " attempts: " ++ m2)) := by
  have e2 := retrieveGo_succ_err_last keep os 3 2 0 m2 h2 (by norm_num)
  have e1 := retrieveGo_succ_err_cont keep os 3 1 1 m1 h1 (by norm_num)
  have e0 := retrieveGo_succ_err_cont keep os 3 0 2 m0 h0 (by norm_num)
  norm_num at e0 e1 e2
  rw [e1, e2] at e0
  rw [retrieve_results, e0]
  simp [backoffUnit]

/-- C2 witness: every attempt fails at the remote archive step; the full
trace and the wrapped final error. -/
theorem retrieve_exhausts_three_attempts_witness :
    retrieve_results false (fun _ => failAttempt) 3 5
      = ([.sleepE 5, .attemptStart 0, .sshMakeResultBundle,
          .attemptStart 1, .sleepE 2, .sshMakeResultBundle,
          .attemptStart 2, .sleepE 4, .sshMakeResultBundle],
         some false, .raised "Failed after 3 attempts: tar failed") := by
  have h := retrieve_exhausts_three_attempts false (fun _ => failAttempt) 5
    "tar failed" "tar failed" "tar failed" rfl rfl rfl
  exact h.trans (by decide)

/-- C6: if every retrieval attempt fails transiently (failed fetch step or
missing markers — the retrieval-exhausted scenario), `retrieve_results` does
not return success and never issues the remote `rm -rf`; and in general the
remote cleanup is executed only inside an attempt that reached the success
path, and only when the `keep_remote` retention flag is unset. -/
theorem retrieval_cleanup_contract (keep : Bool) (os : Nat → AttemptOracle) (mr d : Nat) :
    ((∀ i, ¬ fetchVerifyOk (os i)) →
      (retrieve_results keep os mr d).2.1 ≠ some true ∧
      Ev.sshRmWorkDir ∉ (retrieve_results keep os mr d).1) ∧
    (∀ o, Ev.sshRmWorkDir ∈ (attemptRun keep o).1 → keep = false ∧ fetchVerifyOk o) := by
  constructor
  · intro h
    obtain ⟨hm, hs⟩ := retrieveGo_transient_no_rm keep os mr h mr 0
    constructor
    · intro hsucc
      rcases hr : (retrieveGo keep os mr 0 mr).2 with _ | m | _
      · exact hs hr
      · simp [retrieve_results, hr] at hsucc
      · simp [retrieve_results, hr] at hsucc
    · intro hmem
      rw [retrieve_results] at hmem
      simp only [List.mem_cons] at hmem
      rcases hmem with hmem | hmem
      · exact absurd hmem (by simp)
      · exact hm hmem
  · intro o ho
    exact attemptRun_rm_reaches_cleanup keep o ho

/-- C6 witness: all three attempts fail at the remote archive step — no
remote deletion and no success; and a concrete attempt that did issue the
cleanup must have passed fetch and verification with the flag unset. -/
theorem retrieval_cleanup_contract_witness :
    (retrieve_results false (fun _ => failAttempt) 3 5).2.1 ≠ some true ∧
    Ev.sshRmWorkDir ∉ (retrieve_results false (fun _ => failAttempt) 3 5).1 ∧
    fetchVerifyOk (okAttempt ["transcript_1.txt"]) := by
  have h1 := (retrieval_cleanup_contract false (fun _ => failAttempt) 3 5).1
    (fun i => by simp [failAttempt, fetchVerifyOk])
  have h2 := (retrieval_cleanup_contract false (fun _ => failAttempt) 3 5).2
    (okAttempt ["transcript_1.txt"]) (by decide)
  exact ⟨h1.1, h1.2, h2.2⟩

/-- C9: the parsed `--keep-remote` command-line flag is never consulted: the
run's outcome and trace are identical for any value of the flag, because the
retrieval cleanup reads only the configuration file's `keep_remote` key; in
particular, with the flag passed but the config key absent, a successful run
still deletes the remote work directory. -/
theorem cli_keep_remote_flag_unused :
    (∀ (d b1 b2 : Bool) (cfg : Config) (files : List String) (connOk : Bool)
        (exec : ExecOracle) (ts : String) (steps : Nat → IterStep) (fuel : Nat)
        (os : Nat → AttemptOracle),
      mainRun ⟨d, b1⟩ cfg files connOk exec ts steps fuel os
        = mainRun ⟨d, b2⟩ cfg files connOk exec ts steps fuel os) ∧
    Ev.sshRmWorkDir ∈ (mainRun ⟨true, true⟩ ⟨"host", 22, "/remote", none⟩
        ["m.wav", "m.json"] true ⟨true, true, true, true, true⟩ "ts"
        (fun _ => IterStep.done) 1
        (fun _ => okAttempt ["transcript_1.txt"])).2 := by
  constructor
  · intro d b1 b2 cfg files connOk exec ts steps fuel os
    rfl
  · decide

/-- C10: input discovery requires exactly one WAV and exactly one JSON file:
whenever either glob does not match exactly one file, `find_audio_pair`
returns no pair, and the run aborts right after the connection check with no
further remote interaction. -/
theorem find_pair_requires_exactly_one (files : List String)
    (h : (files.filter (fun f => pyGlob "*.wav" f)).length ≠ 1 ∨
         (files.filter (fun f => pyGlob "*.json" f)).length ≠ 1) :
    find_audio_pair files = none ∧
    (∀ (b : Bool) (cfg : Config) (exec : ExecOracle) (ts : String)
        (steps : Nat → IterStep) (fuel : Nat) (os : Nat → AttemptOracle),
      mainRun ⟨true, b⟩ cfg files true exec ts steps fuel os
        = (.noPair, [.sshConnCheck])) := by
  have hnone : find_audio_pair files = none := by
    simp only [find_audio_pair]
    split
    · rename_i w j hw hj
      exfalso
      rcases h with h | h
      · exact h (by rw [hw]; rfl)
      · exact h (by rw [hj]; rfl)
    · rfl
  refine ⟨hnone, ?_⟩
  intro b cfg exec ts steps fuel os
  simp [mainRun, hnone]

/-- C10 witness: two WAV files and one JSON file — no pair, and the run
stops after the connection check. -/
theorem find_pair_requires_exactly_one_witness :
    find_audio_pair ["a.wav", "b.wav", "c.json"] = none ∧
    mainRun ⟨true, false⟩ ⟨"host", 22, "/remote", none⟩ ["a.wav", "b.wav", "c.json"] true
        ⟨true, true, true, true, true⟩ "ts" (fun _ => IterStep.done) 1 (fun _ => failAttempt)
      = (.noPair, [.sshConnCheck]) := by
  have h := find_pair_requires_exactly_one ["a.wav", "b.wav", "c.json"] (by decide)
  exact ⟨h.1, h.2 false ⟨"host", 22, "/remote", none⟩ ⟨true, true, true, true, true⟩ "ts"
    (fun _ => IterStep.done) 1 (fun _ => failAttempt)⟩

/-- C4 amended witness: one running iteration, then an interrupt. -/
theorem monitor_cancel_returns_false_no_further_remote_witness :
    monitor_process (fun i => if i = 0 then IterStep.running else IterStep.interrupt) 3
      = (iterBlock 1, some false) :=
  monitor_cancel_returns_false_no_further_remote
    (fun i => if i = 0 then IterStep.running else IterStep.interrupt) 1 3
    (by intro j hj; have hj0 : j = 0 := by omega
        simp [hj0])
    (by simp) (by decide)

end GpuService
